import Mathlib

/-!
Verification of the Deployment Orchestrator of the agxp-cloudflare backend.

The definitions below are a shallow embedding of
`src/cloudflare-edge-backend/src/services/analytics.service.ts`
(classes `CloudflareService` and `DeploymentService`),
`src/cloudflare-edge-backend/src/utils/encryption.ts` (the AES-GCM vault)
and the D1 schema `migrations/0001_initial_schema.sql`.

The local D1 database is modelled as explicit lists of rows; each remote
Cloudflare call (and the Web-Crypto decryption used by the orchestrator)
is an oracle function of an `OrchEnv` record returning `Except String`:
`.error e` models the TypeScript call throwing `Error(e)`, `.ok` a normal
return.  A `deploy`/`updateVariants`/`deleteDeployment` run is a pure
function of the oracle and the database, mirroring the source line by
line; `deploy` additionally records the ordered trace of its side effects
so that ordering claims can be stated.
-/

namespace AgxpSpec

/-! ## Data model (migrations/0001_initial_schema.sql) -/

/-- One row of `cloudflare_connections`. -/
structure ConnectionRow where
  user_id : Nat
  account_id : String
  token_encrypted : String
  status : String
deriving Repr, DecidableEq

/-- One row of `deployments`.  `worker_name` and `kv_namespace_id` are kept
as `Option String` so that the spec's non-null invariant is a statement
about what the code writes, not about the SQL column constraint. -/
structure DeploymentRow where
  id : Nat
  user_id : Nat
  zone_id : String
  zone_name : String
  worker_name : Option String
  kv_namespace_id : Option String
  route_pattern : Option String
  route_id : Option String
  status : String
  deployed_at : Nat
  last_updated : Nat
deriving Repr, DecidableEq

/-- One row of `variants`. -/
structure VariantRow where
  user_id : Nat
  deployment_id : Nat
  url_path : String
  content : String
  content_hash : Option String
  status : String
deriving Repr, DecidableEq

/-- One row of `api_keys` (the deployment-secret digests). -/
structure ApiKeyRow where
  user_id : Nat
  key_hash : String
  deployment_id : Option Nat
  status : String
deriving Repr, DecidableEq

/-- The D1 database.  `nextDeploymentId` models the AUTOINCREMENT row id
returned as `meta.last_row_id` by the deployments insert. -/
structure DB where
  connections : List ConnectionRow
  deployments : List DeploymentRow
  variants : List VariantRow
  api_keys : List ApiKeyRow
  nextDeploymentId : Nat
deriving Repr, DecidableEq

/-! ## The effect oracle

Each field stands for one remote operation of `CloudflareService` (or the
vault's `decryptToken`, or a Web-Crypto helper): the TypeScript method
either returns normally (`.ok`) or throws an `Error` whose message is the
`.error` payload.  `now` models `datetime('now')`, `generateApiKey` the
random key draw, `healthCheck` the post-deploy probe (which catches its
own failures and returns a boolean). -/
structure OrchEnv where
  encryptionKey : String
  apiBaseUrl : String
  decryptToken : String → String → Except String String
  createKVNamespace : String → String → Except String String
  uploadWorker : String → String → String → String → Except String Unit
  setWorkerSecret : String → String → String → String → Except String Unit
  addWorkerRoute : String → String → String → Except String String
  putKVValue : String → String → String → String → Except String Unit
  deleteWorker : String → String → Except String Unit
  deleteWorkerRoute : String → String → Except String Unit
  deleteKVNamespace : String → String → Except String Unit
  generateApiKey : String
  hashApiKey : String → String
  healthCheck : String → Bool
  now : Nat

/-- Side-effect trace events emitted by `deploy`, in source order. -/
inductive Event where
  | connFound
  | tokenDecrypted
  | kvCreated (id : String)
  | workerUploaded (name : String)
  | secretSet (name : String)
  | routeAdded (id : String)
  | variantPut (path : String) (ok : Bool)
  | deploymentInserted (id : Nat)
  | apiKeyInserted (deploymentId : Nat)
  | healthChecked (ok : Bool)
deriving Repr, DecidableEq

/-- Result value of `DeploymentService.deploy` (`DeploymentResult`). -/
inductive DeployResult where
  | failure (error : String)
  | success (deploymentId : Nat) (workerName kvNamespaceId : String)
      (variantsUploaded : Nat)
deriving Repr, DecidableEq

/-- What one `deploy` invocation produces: the database afterwards, the
returned `DeploymentResult`, and the ordered effect trace. -/
structure DeployOutcome where
  db : DB
  result : DeployResult
  trace : List Event
deriving Repr

/-- `getClientWorkerCode()` returns a fixed worker template string
(`src/templates/client-worker.ts`); its content is irrelevant here. -/
def getClientWorkerCode : String := "client-worker-template"

/-! ## uploadExistingVariants (analytics.service.ts, private helper) -/

/-- The rows returned by the helper's query
`SELECT url_path, content FROM variants WHERE user_id = ? AND status = 'active'
[AND deployment_id = ?]`.  The `deployment_id` filter is appended only when
the optional argument is truthy in JavaScript (present and non-zero). -/
def relevantVariants (db : DB) (userId : Nat) (deploymentId : Option Nat) :
    List VariantRow :=
  db.variants.filter fun v =>
    v.user_id == userId && v.status == "active" &&
      (match deploymentId with
       | some d => d == 0 || v.deployment_id == d
       | none => true)

/-- One iteration of the upload loop: `putKVValue` is attempted, the
counter is incremented on success, a per-item failure is caught (logged)
and skipped. -/
def uploadStep (env : OrchEnv) (accountId kvNamespaceId : String)
    (acc : Nat × List Event) (v : VariantRow) : Nat × List Event :=
  match env.putKVValue accountId kvNamespaceId v.url_path v.content with
  | .ok _ => (acc.1 + 1, acc.2 ++ [Event.variantPut v.url_path true])
  | .error _ => (acc.1, acc.2 ++ [Event.variantPut v.url_path false])

/-- `uploadExistingVariants`: writes each relevant variant to the remote
key-value store, counting successes; never fails. -/
def uploadExistingVariants (env : OrchEnv) (accountId kvNamespaceId : String)
    (userId : Nat) (deploymentId : Option Nat) (db : DB) : Nat × List Event :=
  (relevantVariants db userId deploymentId).foldl
    (uploadStep env accountId kvNamespaceId) (0, [])

/-! ## deploy (DeploymentService.deploy) -/

/-- `DeploymentService.deploy`: the provisioning sequence.  Every thrown
error is caught by the method's outer `try`/`catch` and surfaces as
`{success: false, error: message}`, here `DeployResult.failure`. -/
def deploy (env : OrchEnv) (db : DB) (userId : Nat)
    (siteId zoneId zoneName : String) : DeployOutcome :=
  match db.connections.find? (fun c => c.user_id == userId && c.status == "active") with
  | none => ⟨db, .failure "No active Cloudflare connection found", []⟩
  | some conn =>
    match env.decryptToken conn.token_encrypted env.encryptionKey with
    | .error e => ⟨db, .failure e, [.connFound]⟩
    | .ok _accessToken =>
      match env.createKVNamespace conn.account_id ("axp-variants-" ++ siteId) with
      | .error e => ⟨db, .failure e, [.connFound, .tokenDecrypted]⟩
      | .ok kvNamespaceId =>
        let workerName := "axp-" ++ siteId
        match env.uploadWorker conn.account_id workerName getClientWorkerCode kvNamespaceId with
        | .error e => ⟨db, .failure e,
            [.connFound, .tokenDecrypted, .kvCreated kvNamespaceId]⟩
        | .ok _ =>
          let clientApiKey := env.generateApiKey
          let keyHash := env.hashApiKey clientApiKey
          match env.setWorkerSecret conn.account_id workerName "CLIENT_API_KEY" clientApiKey with
          | .error e => ⟨db, .failure e,
              [.connFound, .tokenDecrypted, .kvCreated kvNamespaceId,
               .workerUploaded workerName]⟩
          | .ok _ =>
            match env.setWorkerSecret conn.account_id workerName "SITE_ID" siteId with
            | .error e => ⟨db, .failure e,
                [.connFound, .tokenDecrypted, .kvCreated kvNamespaceId,
                 .workerUploaded workerName, .secretSet "CLIENT_API_KEY"]⟩
            | .ok _ =>
              match env.setWorkerSecret conn.account_id workerName "API_ENDPOINT" env.apiBaseUrl with
              | .error e => ⟨db, .failure e,
                  [.connFound, .tokenDecrypted, .kvCreated kvNamespaceId,
                   .workerUploaded workerName, .secretSet "CLIENT_API_KEY",
                   .secretSet "SITE_ID"]⟩
              | .ok _ =>
                match env.addWorkerRoute zoneId (zoneName ++ "/*") workerName with
                | .error e => ⟨db, .failure e,
                    [.connFound, .tokenDecrypted, .kvCreated kvNamespaceId,
                     .workerUploaded workerName, .secretSet "CLIENT_API_KEY",
                     .secretSet "SITE_ID", .secretSet "API_ENDPOINT"]⟩
                | .ok routeId =>
                  let sync := uploadExistingVariants env conn.account_id kvNamespaceId userId none db
                  let deploymentId := db.nextDeploymentId
                  let newRow : DeploymentRow :=
                    { id := deploymentId, user_id := userId, zone_id := zoneId,
                      zone_name := zoneName, worker_name := some workerName,
                      kv_namespace_id := some kvNamespaceId,
                      route_pattern := some (zoneName ++ "/*"),
                      route_id := some routeId, status := "active",
                      deployed_at := env.now, last_updated := env.now }
                  let newKey : ApiKeyRow :=
                    { user_id := userId, key_hash := keyHash,
                      deployment_id := some deploymentId, status := "active" }
                  let db2 : DB :=
                    { db with
                      deployments := db.deployments ++ [newRow],
                      api_keys := db.api_keys ++ [newKey],
                      nextDeploymentId := db.nextDeploymentId + 1 }
                  let healthy := env.healthCheck zoneName
                  ⟨db2, .success deploymentId workerName kvNamespaceId sync.1,
                    [.connFound, .tokenDecrypted, .kvCreated kvNamespaceId,
                     .workerUploaded workerName, .secretSet "CLIENT_API_KEY",
                     .secretSet "SITE_ID", .secretSet "API_ENDPOINT",
                     .routeAdded routeId]
                    ++ sync.2
                    ++ [.deploymentInserted deploymentId,
                        .apiKeyInserted deploymentId, .healthChecked healthy]⟩

/-! ## updateVariants and deleteDeployment -/

/-- The join `SELECT d.*, c.account_id, c.token_encrypted FROM deployments d
JOIN cloudflare_connections c ON d.user_id = c.user_id WHERE d.id = ? AND
d.user_id = ? [AND d.status = 'active']`, taking the first row.  The
connection side carries no status filter in either caller. -/
def findDeploymentJoin (db : DB) (deploymentId userId : Nat)
    (activeOnly : Bool) : Option (DeploymentRow × ConnectionRow) :=
  match db.deployments.find?
      (fun d => d.id == deploymentId && d.user_id == userId &&
        (!activeOnly || d.status == "active")) with
  | none => none
  | some d =>
    match db.connections.find? (fun c => c.user_id == d.user_id) with
    | none => none
    | some c => some (d, c)

/-- `DeploymentService.updateVariants` (resync): re-uploads all active
variants of one deployment, then bumps `last_updated`.  Failures of the
lookup or decryption are rethrown (`.error`); per-item write failures are
absorbed by `uploadExistingVariants`. -/
def updateVariants (env : OrchEnv) (db : DB) (deploymentId userId : Nat) :
    DB × Except String Nat :=
  match findDeploymentJoin db deploymentId userId true with
  | none => (db, .error "Deployment not found")
  | some (d, c) =>
    match env.decryptToken c.token_encrypted env.encryptionKey with
    | .error e => (db, .error e)
    | .ok _accessToken =>
      let res := uploadExistingVariants env c.account_id
        (d.kv_namespace_id.getD "") userId (some deploymentId) db
      let db1 : DB :=
        { db with deployments := db.deployments.map fun r =>
            if r.id == deploymentId then { r with last_updated := env.now } else r }
      (db1, .ok res.1)

/-- `DeploymentService.deleteDeployment` (teardown): best-effort deletion
of route, worker and KV namespace — each attempt's outcome is caught and
discarded — followed by the unconditional local bookkeeping updates.
`if (routeId)` in the source skips the route deletion when `route_id` is
null or the empty string (JavaScript truthiness). -/
def deleteDeployment (env : OrchEnv) (db : DB) (deploymentId userId : Nat) :
    DB × Except String Unit :=
  match findDeploymentJoin db deploymentId userId false with
  | none => (db, .error "Deployment not found")
  | some (d, c) =>
    match env.decryptToken c.token_encrypted env.encryptionKey with
    | .error e => (db, .error e)
    | .ok _accessToken =>
      let _routeAttempt : Option (Except String Unit) :=
        match d.route_id with
        | some r => if r == "" then none else some (env.deleteWorkerRoute d.zone_id r)
        | none => none
      let _workerAttempt := env.deleteWorker c.account_id (d.worker_name.getD "")
      let _kvAttempt := env.deleteKVNamespace c.account_id (d.kv_namespace_id.getD "")
      let db1 : DB :=
        { db with deployments := db.deployments.map fun r =>
            if r.id == deploymentId then
              { r with status := "deleted", last_updated := env.now }
            else r }
      let db2 : DB :=
        { db1 with api_keys := db1.api_keys.map fun k =>
            if k.deployment_id == some deploymentId then
              { k with status := "inactive" }
            else k }
      (db2, .ok ())

/-! ## Spec-side definitions and instrumentation -/

/-- Spec §7, written from the spec's words: provisioning is fail-fast
through steps 1–6 (connection lookup, credential decryption, key-value
store creation, worker upload, the three worker secrets, route add), and
the error of the first failing step propagates unmodified; sync (step 7)
and the health probe (step 9) cannot fail the operation.  This function
returns that first error, `none` when steps 1–6 all succeed. -/
def specFailFast (env : OrchEnv) (db : DB) (userId : Nat)
    (siteId zoneId zoneName : String) : Option String :=
  match db.connections.find? (fun c => c.user_id == userId && c.status == "active") with
  | none => some "No active Cloudflare connection found"
  | some conn =>
    match env.decryptToken conn.token_encrypted env.encryptionKey with
    | .error e => some e
    | .ok _accessToken =>
      match env.createKVNamespace conn.account_id ("axp-variants-" ++ siteId) with
      | .error e => some e
      | .ok kvNamespaceId =>
        let workerName := "axp-" ++ siteId
        match env.uploadWorker conn.account_id workerName getClientWorkerCode kvNamespaceId with
        | .error e => some e
        | .ok _ =>
          let clientApiKey := env.generateApiKey
          match env.setWorkerSecret conn.account_id workerName "CLIENT_API_KEY" clientApiKey with
          | .error e => some e
          | .ok _ =>
            match env.setWorkerSecret conn.account_id workerName "SITE_ID" siteId with
            | .error e => some e
            | .ok _ =>
              match env.setWorkerSecret conn.account_id workerName "API_ENDPOINT" env.apiBaseUrl with
              | .error e => some e
              | .ok _ =>
                match env.addWorkerRoute zoneId (zoneName ++ "/*") workerName with
                | .error e => some e
                | .ok _ => none

/-- The §3 invariant for a single deployments row: an `active` row carries
a worker name and a key-value store id. -/
def activeDeploymentOk (d : DeploymentRow) : Prop :=
  d.status = "active" → d.worker_name.isSome ∧ d.kv_namespace_id.isSome

instance (d : DeploymentRow) : Decidable (activeDeploymentOk d) :=
  inferInstanceAs (Decidable (_ → _ ∧ _))

/-- The §3 invariant over the whole deployments table. -/
def activeDeploymentsWellFormed (db : DB) : Prop :=
  ∀ d ∈ db.deployments, activeDeploymentOk d

instance (db : DB) : Decidable (activeDeploymentsWellFormed db) :=
  inferInstanceAs (Decidable (∀ d ∈ db.deployments, activeDeploymentOk d))

/-- Events relevant to the persistence-ordering claim: worker-secret
assignment, route add, deployment-row insert, digest insert. -/
def isOrderMarkEv : Event → Bool
  | .secretSet _ => true
  | .routeAdded _ => true
  | .deploymentInserted _ => true
  | .apiKeyInserted _ => true
  | _ => false

def isRouteAddEv : Event → Bool
  | .routeAdded _ => true
  | _ => false

def isDeployInsertEv : Event → Bool
  | .deploymentInserted _ => true
  | _ => false

def isApiKeyInsertEv : Event → Bool
  | .apiKeyInserted _ => true
  | _ => false

/-- The ordering claimed for the secret digest: persisted before the
routing rule is added and before the Deployment row is persisted. -/
def digestPersistedEarly (tr : List Event) : Prop :=
  tr.findIdx isApiKeyInsertEv < tr.findIdx isRouteAddEv ∧
    tr.findIdx isApiKeyInsertEv < tr.findIdx isDeployInsertEv

instance (tr : List Event) : Decidable (digestPersistedEarly tr) :=
  inferInstanceAs (Decidable (_ ∧ _))

/-- Field-wise frame for a deployments row under teardown: everything but
`status` and `last_updated` is unchanged. -/
def deploymentFrame (d d' : DeploymentRow) : Prop :=
  d'.id = d.id ∧ d'.user_id = d.user_id ∧ d'.zone_id = d.zone_id ∧
    d'.zone_name = d.zone_name ∧ d'.worker_name = d.worker_name ∧
    d'.kv_namespace_id = d.kv_namespace_id ∧
    d'.route_pattern = d.route_pattern ∧ d'.route_id = d.route_id ∧
    d'.deployed_at = d.deployed_at

/-- Field-wise frame for an api_keys row under teardown: everything but
`status` is unchanged. -/
def apiKeyFrame (k k' : ApiKeyRow) : Prop :=
  k'.user_id = k.user_id ∧ k'.key_hash = k.key_hash ∧
    k'.deployment_id = k.deployment_id

/-- Frame for a deployments row under teardown of deployment `i`, scoped
to that deployment: at most `status`/`last_updated` change, and a row of
any other deployment is completely unchanged. -/
def scopedDeploymentFrame (i : Nat) (d d' : DeploymentRow) : Prop :=
  deploymentFrame d d' ∧ (d.id ≠ i → d' = d)

/-- Frame for an api_keys row under teardown of deployment `i`, scoped to
that deployment: at most `status` changes, and a key row belonging to any
other deployment is completely unchanged. -/
def scopedApiKeyFrame (i : Nat) (k k' : ApiKeyRow) : Prop :=
  apiKeyFrame k k' ∧ (k.deployment_id ≠ some i → k' = k)

/-- Whether an oracle call failed (threw). -/
def exceptFailed {α : Type} : Except String α → Bool
  | .ok _ => false
  | .error _ => true

/-! ## Concrete fixtures used by the witnesses -/

/-- An oracle under which provisioning succeeds, the key-value write for
path `/b` fails, and all three teardown deletions fail. -/
def okEnv : OrchEnv where
  encryptionKey := "base64key"
  apiBaseUrl := "https://api.example.com"
  decryptToken := fun _ _ => .ok "cf-token"
  createKVNamespace := fun _ _ => .ok "kv1"
  uploadWorker := fun _ _ _ _ => .ok ()
  setWorkerSecret := fun _ _ _ _ => .ok ()
  addWorkerRoute := fun _ _ _ => .ok "route1"
  putKVValue := fun _ _ path _ => if path == "/b" then .error "kv write failed" else .ok ()
  deleteWorker := fun _ _ => .error "delete worker failed"
  deleteWorkerRoute := fun _ _ => .error "delete route failed"
  deleteKVNamespace := fun _ _ => .error "delete kv failed"
  generateApiKey := "sk_live_test"
  hashApiKey := fun s => "sha:" ++ s
  healthCheck := fun _ => true
  now := 100

/-- `okEnv` with the key-value store creation (step 3) failing. -/
def kvFailEnv : OrchEnv :=
  { okEnv with createKVNamespace := fun _ _ => .error "KV create boom" }

/-- An active connection for user 1. -/
def conn1 : ConnectionRow :=
  { user_id := 1, account_id := "acct1", token_encrypted := "enc-token",
    status := "active" }

/-- A database with one connection and three active variants. -/
def baseDb : DB where
  connections := [conn1]
  deployments := []
  variants :=
    [{ user_id := 1, deployment_id := 1, url_path := "/a", content := "A",
       content_hash := none, status := "active" },
     { user_id := 1, deployment_id := 1, url_path := "/b", content := "B",
       content_hash := none, status := "active" },
     { user_id := 1, deployment_id := 1, url_path := "/c", content := "C",
       content_hash := none, status := "active" }]
  api_keys := []
  nextDeploymentId := 1

/-- An active deployment row (id 1) for user 1. -/
def dep1 : DeploymentRow :=
  { id := 1, user_id := 1, zone_id := "z1", zone_name := "example.com",
    worker_name := some "axp-site", kv_namespace_id := some "kv1",
    route_pattern := some "example.com/*", route_id := some "route1",
    status := "active", deployed_at := 50, last_updated := 50 }

/-- `baseDb` plus the deployment `dep1` and its api key. -/
def dbWithDep : DB :=
  { baseDb with
    deployments := [dep1],
    api_keys := [{ user_id := 1, key_hash := "sha:sk_live_test",
                   deployment_id := some 1, status := "active" }],
    nextDeploymentId := 2 }

/-! ## The credential vault (src/utils/encryption.ts)

`encryptToken`/`decryptToken` wrap the Web-Crypto AES-GCM primitive:
decode the base64 key (trimming and truncating over-length key material to
32 bytes), draw a fresh 12-byte IV, encrypt, prepend the IV and base64 the
result.  Bytes are `Nat`s below 256.  The platform primitives
(`crypto.subtle` AES-GCM and `TextEncoder`/`TextDecoder`) are not part of
the repository; they are abstracted as a `WebCrypto` record together with
their documented laws.  The repository's own helpers
(`arrayBufferToBase64`/`base64ToArrayBuffer`, i.e. `btoa`/`atob`, the key
trimming/truncation and the IV framing) are embedded concretely. -/

/-- Every entry is a byte. -/
def ByteList (bs : List Nat) : Prop := ∀ b ∈ bs, b < 256

instance (bs : List Nat) : Decidable (ByteList bs) :=
  inferInstanceAs (Decidable (∀ b ∈ bs, b < 256))

/-- The base64 alphabet used by `btoa`/`atob`. -/
def b64EncTable : List Char :=
  "ABCDEFGHIJKLMNOPQRSTUVWXYZabcdefghijklmnopqrstuvwxyz0123456789+/".toList

/-- The character for a 6-bit value. -/
def b64Char (v : Nat) : Char := b64EncTable.getD v 'A'

/-- The 6-bit value of a base64 character; `none` for a character outside
the alphabet (`atob` throws there). -/
def b64Val (c : Char) : Option Nat := List.findIdx? (fun x => x == c) b64EncTable

/-- `btoa` on a byte sequence: 3 bytes to 4 characters, `=`-padded. -/
def base64EncodeChars : List Nat → List Char
  | [] => []
  | [b1] => [b64Char (b1 / 4), b64Char (b1 % 4 * 16), '=', '=']
  | [b1, b2] =>
    [b64Char (b1 / 4), b64Char (b1 % 4 * 16 + b2 / 16), b64Char (b2 % 16 * 4), '=']
  | b1 :: b2 :: b3 :: rest =>
    b64Char (b1 / 4) :: b64Char (b1 % 4 * 16 + b2 / 16) ::
      b64Char (b2 % 16 * 4 + b3 / 64) :: b64Char (b3 % 64) :: base64EncodeChars rest

/-- `arrayBufferToBase64`: `String.fromCharCode` then `btoa`; `btoa` rejects
code points above 255. -/
def base64Encode (bs : List Nat) : Option String :=
  if bs.all (fun b => b < 256) then some (String.mk (base64EncodeChars bs)) else none

/-- `atob` on a character sequence: groups of 4 characters to 3 bytes, the
final group possibly `=`-padded down to 1 or 2 bytes. -/
def base64DecodeChars : List Char → Option (List Nat)
  | [] => some []
  | c1 :: c2 :: c3 :: c4 :: c5 :: rest =>
    match b64Val c1, b64Val c2, b64Val c3, b64Val c4,
        base64DecodeChars (c5 :: rest) with
    | some v1, some v2, some v3, some v4, some bs =>
      some ((v1 * 4 + v2 / 16) :: (v2 % 16 * 16 + v3 / 4) :: (v3 % 4 * 64 + v4) :: bs)
    | _, _, _, _, _ => none
  | [c1, c2, c3, c4] =>
    if c4 = '=' then
      if c3 = '=' then
        match b64Val c1, b64Val c2 with
        | some v1, some v2 => some [v1 * 4 + v2 / 16]
        | _, _ => none
      else
        match b64Val c1, b64Val c2, b64Val c3 with
        | some v1, some v2, some v3 =>
          some [v1 * 4 + v2 / 16, v2 % 16 * 16 + v3 / 4]
        | _, _, _ => none
    else
      match b64Val c1, b64Val c2, b64Val c3, b64Val c4 with
      | some v1, some v2, some v3, some v4 =>
        some [v1 * 4 + v2 / 16, v2 % 16 * 16 + v3 / 4, v3 % 4 * 64 + v4]
      | _, _, _, _ => none
  | _ => none

/-- `base64ToArrayBuffer`: `atob` then per-character `charCodeAt`. -/
def base64Decode (s : String) : Option (List Nat) := base64DecodeChars s.data

/-- The Web-Crypto platform primitives used by the vault, abstracted with
their documented laws: AES-GCM decryption inverts encryption under the
same 256-bit key and 12-byte IV, ciphertexts are bytes, and
`TextDecoder` inverts `TextEncoder` producing bytes. -/
structure WebCrypto where
  aesGcmEncrypt : List Nat → List Nat → List Nat → List Nat
  aesGcmDecrypt : List Nat → List Nat → List Nat → Option (List Nat)
  textEncode : String → List Nat
  textDecode : List Nat → Option String
  enc_bytes : ∀ key iv p, ByteList (aesGcmEncrypt key iv p)
  dec_enc : ∀ key iv p, key.length = 32 → iv.length = 12 → ByteList p →
    aesGcmDecrypt key iv (aesGcmEncrypt key iv p) = some p
  encode_bytes : ∀ s, ByteList (textEncode s)
  decode_encode : ∀ s, textDecode (textEncode s) = some s

/-- JavaScript whitespace for `String.prototype.trim` (the characters the
key-string fix cares about: the Windows-injected `\r\n` and blanks). -/
def isJsWhitespace (c : Char) : Bool :=
  c == ' ' || c == '\t' || c == '\n' || c == '\r'

/-- `keyString.trim()`: strip leading and trailing whitespace. -/
def jsTrim (s : String) : String :=
  String.mk (((s.data.dropWhile isJsWhitespace).reverse.dropWhile
    isJsWhitespace).reverse)

/-- Key processing shared by both vault operations: trim the key string,
base64-decode it, truncate decoded material longer than 32 bytes to its
first 32 bytes; `crypto.subtle.importKey` with `AES-GCM, length 256` then
rejects raw key material that is not exactly 32 bytes. -/
def importVaultKey (keyString : String) : Except String (List Nat) :=
  match base64Decode (jsTrim keyString) with
  | none => .error "invalid base64 key"
  | some keyData0 =>
    let keyData := if keyData0.length > 32 then keyData0.take 32 else keyData0
    if keyData.length = 32 then .ok keyData else .error "invalid key length"

/-- `encryptToken(plaintext, keyString)`: the random 12-byte IV drawn by
`crypto.getRandomValues` is passed in explicitly. -/
def encryptToken (W : WebCrypto) (iv : List Nat) (plaintext keyString : String) :
    Except String String :=
  match importVaultKey keyString with
  | .error e => .error ("Encryption failed: " ++ e)
  | .ok keyData =>
    let data := W.textEncode plaintext
    let ciphertext := W.aesGcmEncrypt keyData iv data
    let combined := iv ++ ciphertext
    match base64Encode combined with
    | none => .error "Encryption failed: btoa"
    | some s => .ok s

/-- `decryptToken(ciphertext, keyString)`: split the decoded blob into the
12-byte IV and the ciphertext, decrypt, decode the plaintext bytes. -/
def decryptToken (W : WebCrypto) (ciphertext keyString : String) :
    Except String String :=
  match importVaultKey keyString with
  | .error e => .error ("Decryption failed: " ++ e)
  | .ok keyData =>
    match base64Decode ciphertext with
    | none => .error "Decryption failed: atob"
    | some combined =>
      let iv := combined.take 12
      let data := combined.drop 12
      match W.aesGcmDecrypt keyData iv data with
      | none => .error "Decryption failed: auth"
      | some decrypted =>
        match W.textDecode decrypted with
        | none => .error "Decryption failed: decode"
        | some s => .ok s

/-! ## A concrete WebCrypto instance

Used to witness the vault theorems at concrete inputs: a toy cipher (the
identity on byte sequences) and a toy text codec (each character as three
base-256 digits) satisfying the `WebCrypto` laws. -/

/-- Toy text encoding: each character as three base-256 digits. -/
def toyTextEncodeChar (c : Char) : List Nat :=
  [c.toNat / 65536, c.toNat / 256 % 256, c.toNat % 256]

/-- Toy `TextEncoder`. -/
def toyTextEncode (s : String) : List Nat :=
  s.data.foldr (fun c acc => toyTextEncodeChar c ++ acc) []

/-- Toy `TextDecoder`, character list level. -/
def toyTextDecodeChars : List Nat → Option (List Char)
  | [] => some []
  | b1 :: b2 :: b3 :: rest =>
    match toyTextDecodeChars rest with
    | none => none
    | some cs => some (Char.ofNat (b1 * 65536 + b2 * 256 + b3) :: cs)
  | _ => none

/-- Toy `TextDecoder`. -/
def toyTextDecode (bs : List Nat) : Option String :=
  (toyTextDecodeChars bs).map String.mk

/-- The toy platform record: identity cipher plus the toy text codec. -/
def toyWebCrypto : WebCrypto where
  aesGcmEncrypt := fun _ _ p => p.map (fun b => b % 256)
  aesGcmDecrypt := fun _ _ c => some c
  textEncode := toyTextEncode
  textDecode := toyTextDecode
  enc_bytes := by
    intro _ _ p b hb
    simp only [List.mem_map] at hb
    obtain ⟨a, _, rfl⟩ := hb
    exact Nat.mod_lt _ (by omega)
  dec_enc := by
    intro _ _ p _ _ hp
    simp only [Option.some.injEq]
    induction p with
    | nil => simp
    | cons b bs ih =>
      have hb : b < 256 := hp b (by simp)
      have hbs : ByteList bs := fun x hx => hp x (by simp [hx])
      simp only [List.map_cons, List.cons.injEq]
      exact ⟨Nat.mod_eq_of_lt hb, ih hbs⟩
  encode_bytes := by
    intro s
    unfold toyTextEncode
    induction s.data with
    | nil => intro b hb; simp at hb
    | cons c cs ih =>
      intro b hb
      simp only [List.foldr_cons, List.mem_append] at hb
      rcases hb with h | h
      · have hv : c.toNat < 1114112 := by
          have h' : c.val.toNat < 1114112 := by
            rcases c.valid with hlt | ⟨_, hlt⟩ <;> omega
          exact h'
        simp only [toyTextEncodeChar, List.mem_cons, List.mem_singleton] at h
        rcases h with rfl | rfl | rfl | h
        · omega
        · omega
        · omega
        · simp at h
      · exact ih b h
  decode_encode := by
    intro s
    unfold toyTextDecode toyTextEncode
    have key : ∀ cs : List Char,
        toyTextDecodeChars (cs.foldr (fun c acc => toyTextEncodeChar c ++ acc) []) =
          some cs := by
      intro cs
      induction cs with
      | nil => simp [toyTextDecodeChars]
      | cons c cs ih =>
        have step : List.foldr (fun c acc => toyTextEncodeChar c ++ acc) [] (c :: cs)
            = c.toNat / 65536 :: c.toNat / 256 % 256 :: c.toNat % 256 ::
              List.foldr (fun c acc => toyTextEncodeChar c ++ acc) [] cs := by
          simp [toyTextEncodeChar]
        rw [step, toyTextDecodeChars, ih]
        show some (Char.ofNat _ :: cs) = _
        have harith : c.toNat / 65536 * 65536 + c.toNat / 256 % 256 * 256 +
            c.toNat % 256 = c.toNat := by omega
        rw [harith, Char.ofNat_toNat]
    rw [key s.data]
    rfl

/-! ## Base64 facts -/

theorem b64Val_b64Char : ∀ v < 64, b64Val (b64Char v) = some v := by decide

theorem b64Char_ne_pad : ∀ v < 64, b64Char v ≠ '=' := by decide

theorem base64EncodeChars_ne_nil (b : Nat) (l : List Nat) :
    base64EncodeChars (b :: l) ≠ [] := by
  match l with
  | [] => simp [base64EncodeChars]
  | [b2] => simp [base64EncodeChars]
  | b2 :: b3 :: rest => simp [base64EncodeChars]

theorem base64DecodeChars_encodeChars :
    ∀ bs : List Nat, ByteList bs →
      base64DecodeChars (base64EncodeChars bs) = some bs := by
  intro bs
  induction bs using base64EncodeChars.induct with
  | case1 =>
    intro _
    simp [base64EncodeChars, base64DecodeChars]
  | case2 b1 =>
    intro hb
    have h1 : b1 < 256 := hb b1 (by simp)
    rw [base64EncodeChars, base64DecodeChars]
    rw [if_pos rfl, if_pos rfl]
    rw [b64Val_b64Char (b1 / 4) (by omega), b64Val_b64Char (b1 % 4 * 16) (by omega)]
    simp only [Option.some.injEq, List.cons.injEq, and_true]
    omega
  | case3 b1 b2 =>
    intro hb
    have h1 : b1 < 256 := hb b1 (by simp)
    have h2 : b2 < 256 := hb b2 (by simp)
    rw [base64EncodeChars, base64DecodeChars]
    rw [if_pos rfl, if_neg (b64Char_ne_pad (b2 % 16 * 4) (by omega))]
    rw [b64Val_b64Char (b1 / 4) (by omega),
      b64Val_b64Char (b1 % 4 * 16 + b2 / 16) (by omega),
      b64Val_b64Char (b2 % 16 * 4) (by omega)]
    simp only [Option.some.injEq, List.cons.injEq, and_true]
    constructor
    · omega
    · omega
  | case4 b1 b2 b3 rest ih =>
    intro hb
    have h1 : b1 < 256 := hb b1 (by simp)
    have h2 : b2 < 256 := hb b2 (by simp)
    have h3 : b3 < 256 := hb b3 (by simp)
    have hbr : ByteList rest := by
      intro b hbmem
      exact hb b (by simp [hbmem])
    rw [base64EncodeChars]
    match hrest : rest with
    | [] =>
      rw [base64EncodeChars, base64DecodeChars]
      rw [if_neg (b64Char_ne_pad (b3 % 64) (by omega))]
      rw [b64Val_b64Char (b1 / 4) (by omega),
        b64Val_b64Char (b1 % 4 * 16 + b2 / 16) (by omega),
        b64Val_b64Char (b2 % 16 * 4 + b3 / 64) (by omega),
        b64Val_b64Char (b3 % 64) (by omega)]
      simp only [Option.some.injEq, List.cons.injEq, and_true]
      refine ⟨by omega, by omega, by omega⟩
    | r :: rs =>
      have hne := base64EncodeChars_ne_nil r rs
      match henc : base64EncodeChars (r :: rs) with
      | [] => exact absurd henc hne
      | e :: es =>
        rw [base64DecodeChars]
        rw [b64Val_b64Char (b1 / 4) (by omega),
          b64Val_b64Char (b1 % 4 * 16 + b2 / 16) (by omega),
          b64Val_b64Char (b2 % 16 * 4 + b3 / 64) (by omega),
          b64Val_b64Char (b3 % 64) (by omega)]
        have ihr := ih hbr
        rw [henc] at ihr
        rw [ihr]
        simp only [Option.some.injEq, List.cons.injEq, and_true]
        refine ⟨by omega, by omega, by omega⟩

theorem base64Encode_eq_some (bs : List Nat) (hb : ByteList bs) :
    base64Encode bs = some (String.mk (base64EncodeChars bs)) := by
  unfold base64Encode
  rw [if_pos]
  simp only [List.all_eq_true, decide_eq_true_eq]
  exact hb

theorem base64Decode_encode (bs : List Nat) (hb : ByteList bs) :
    base64Decode (String.mk (base64EncodeChars bs)) = some bs := by
  unfold base64Decode
  exact base64DecodeChars_encodeChars bs hb

/-! ## Vault lemmas -/

theorem importVaultKey_exact (K : String) (kd : List Nat)
    (hkd : base64Decode (jsTrim K) = some kd) (hlen : kd.length = 32) :
    importVaultKey K = .ok kd := by
  unfold importVaultKey
  rw [hkd]
  simp [hlen]

theorem importVaultKey_truncates (K : String) (kd : List Nat)
    (hkd : base64Decode (jsTrim K) = some kd) (hlong : 32 < kd.length) :
    importVaultKey K = .ok (kd.take 32) := by
  unfold importVaultKey
  rw [hkd]
  dsimp only
  rw [if_pos hlong]
  rw [if_pos (by simp [List.length_take]; omega)]

theorem encryptToken_ok (W : WebCrypto) (iv : List Nat) (P K : String)
    (kd : List Nat) (hkey : importVaultKey K = .ok kd) (hivb : ByteList iv) :
    encryptToken W iv P K =
      .ok (String.mk (base64EncodeChars
        (iv ++ W.aesGcmEncrypt kd iv (W.textEncode P)))) := by
  have hC : ByteList (W.aesGcmEncrypt kd iv (W.textEncode P)) :=
    W.enc_bytes kd iv (W.textEncode P)
  have hcomb : ByteList (iv ++ W.aesGcmEncrypt kd iv (W.textEncode P)) := by
    intro b hbm
    rcases List.mem_append.mp hbm with h | h
    · exact hivb b h
    · exact hC b h
  unfold encryptToken
  rw [hkey]
  dsimp only
  rw [base64Encode_eq_some _ hcomb]

theorem decryptToken_of_blob (W : WebCrypto) (iv ct : List Nat) (K : String)
    (kd : List Nat) (hkey : importVaultKey K = .ok kd)
    (hiv : iv.length = 12) (hivb : ByteList iv) (hctb : ByteList ct)
    (P : String) (hdec : W.aesGcmDecrypt kd iv ct = some (W.textEncode P)) :
    decryptToken W (String.mk (base64EncodeChars (iv ++ ct))) K = .ok P := by
  have hcomb : ByteList (iv ++ ct) := by
    intro b hbm
    rcases List.mem_append.mp hbm with h | h
    · exact hivb b h
    · exact hctb b h
  unfold decryptToken
  rw [hkey]
  dsimp only
  rw [base64Decode_encode _ hcomb]
  dsimp only
  rw [List.take_left' hiv, List.drop_left' hiv]
  rw [hdec]
  dsimp only
  rw [W.decode_encode]

/-- C5: for every platform, every 12-byte IV, every plaintext `P` and every
base64 key `K` decoding to exactly 32 bytes (a 256-bit key), decrypting the
vault's own encryption output — a fresh 12-byte IV prepended to the
ciphertext, base64-encoded — with the same key recovers `P` exactly:
`decrypt(encrypt(P,K),K) = P`. -/
theorem vault_decrypt_encrypt_roundtrip (W : WebCrypto) (iv : List Nat)
    (P K : String) (kd : List Nat)
    (hkd : base64Decode (jsTrim K) = some kd) (hlen : kd.length = 32)
    (hiv : iv.length = 12) (hivb : ByteList iv) :
    (encryptToken W iv P K).bind (fun blob => decryptToken W blob K) = .ok P := by
  have hkey := importVaultKey_exact K kd hkd hlen
  rw [encryptToken_ok W iv P K kd hkey hivb]
  show decryptToken W _ K = _
  exact decryptToken_of_blob W iv _ K kd hkey hiv hivb
    (W.enc_bytes kd iv (W.textEncode P)) P
    (W.dec_enc kd iv (W.textEncode P) hlen hiv (W.encode_bytes P))

/-- Witness for C5: the round trip at a concrete 256-bit key, IV and
plaintext, on the concrete `WebCrypto` instance. -/
theorem vault_decrypt_encrypt_roundtrip_witness :
    (encryptToken toyWebCrypto (List.replicate 12 0) "cf-token"
        "AAAAAAAAAAAAAAAAAAAAAAAAAAAAAAAAAAAAAAAAAAA=").bind
      (fun blob => decryptToken toyWebCrypto blob
        "AAAAAAAAAAAAAAAAAAAAAAAAAAAAAAAAAAAAAAAAAAA=") = .ok "cf-token" :=
  vault_decrypt_encrypt_roundtrip toyWebCrypto (List.replicate 12 0) "cf-token"
    "AAAAAAAAAAAAAAAAAAAAAAAAAAAAAAAAAAAAAAAAAAA=" (List.replicate 32 0)
    (by decide) (by decide) (by decide) (by decide)

/-- C9: a base64 key whose decoded material exceeds 32 bytes is truncated
to its first 32 bytes by both vault operations, never rejected: an
over-length key whose first 32 bytes equal a given 256-bit key behaves
identically to that key in both `encryptToken` and `decryptToken`. -/
theorem vault_overlength_key_truncated (W : WebCrypto) (iv : List Nat)
    (P C K Klong : String) (kd kdl : List Nat)
    (hK : base64Decode (jsTrim K) = some kd) (hlen : kd.length = 32)
    (hKl : base64Decode (jsTrim Klong) = some kdl) (hlong : 32 < kdl.length)
    (hpre : kdl.take 32 = kd) :
    encryptToken W iv P Klong = encryptToken W iv P K ∧
      decryptToken W C Klong = decryptToken W C K := by
  have h1 : importVaultKey Klong = .ok kd := by
    rw [importVaultKey_truncates Klong kdl hKl hlong, hpre]
  have h2 : importVaultKey K = .ok kd := importVaultKey_exact K kd hK hlen
  refine ⟨?_, ?_⟩
  · unfold encryptToken
    rw [h1, h2]
  · unfold decryptToken
    rw [h1, h2]

/-- Witness for C9: a 33-byte key (44 base64 characters) against the
32-byte key given by its first 32 bytes, at concrete inputs. -/
theorem vault_overlength_key_truncated_witness :
    encryptToken toyWebCrypto (List.replicate 12 0) "p"
        "AAAAAAAAAAAAAAAAAAAAAAAAAAAAAAAAAAAAAAAAAAAA" =
      encryptToken toyWebCrypto (List.replicate 12 0) "p"
        "AAAAAAAAAAAAAAAAAAAAAAAAAAAAAAAAAAAAAAAAAAA=" ∧
    decryptToken toyWebCrypto "AAAA"
        "AAAAAAAAAAAAAAAAAAAAAAAAAAAAAAAAAAAAAAAAAAAA" =
      decryptToken toyWebCrypto "AAAA"
        "AAAAAAAAAAAAAAAAAAAAAAAAAAAAAAAAAAAAAAAAAAA=" :=
  vault_overlength_key_truncated toyWebCrypto (List.replicate 12 0) "p" "AAAA"
    "AAAAAAAAAAAAAAAAAAAAAAAAAAAAAAAAAAAAAAAAAAA="
    "AAAAAAAAAAAAAAAAAAAAAAAAAAAAAAAAAAAAAAAAAAAA"
    (List.replicate 32 0) (List.replicate 33 0)
    (by decide) (by decide) (by decide) (by decide) (by decide)

/-! ## Orchestrator theorems -/

/-- C8: a customer with no active connection on file gets the
`No active Cloudflare connection found` failure and the database —
in particular the deployments table — is left exactly as it was. -/
theorem deploy_no_connection (env : OrchEnv) (db : DB) (userId : Nat)
    (siteId zoneId zoneName : String)
    (h : db.connections.find?
      (fun c => c.user_id == userId && c.status == "active") = none) :
    deploy env db userId siteId zoneId zoneName =
      ⟨db, .failure "No active Cloudflare connection found", []⟩ := by
  unfold deploy
  rw [h]

/-- Witness for C8: user 2 has no connection in `baseDb`. -/
theorem deploy_no_connection_witness :
    deploy okEnv baseDb 2 "site" "z1" "example.com" =
      ⟨baseDb, .failure "No active Cloudflare connection found", []⟩ :=
  deploy_no_connection okEnv baseDb 2 "site" "z1" "example.com" (by decide)

/-- C1: whenever provisioning fails — which happens exactly when one of the
steps before the Deployment-row persist throws (no active connection,
credential decryption, KV-store creation, worker upload, secret setting,
route add) — the database, and with it the deployments table, is left
unchanged: the invocation creates no Deployment row. -/
theorem deploy_failure_leaves_db (env : OrchEnv) (db : DB) (userId : Nat)
    (siteId zoneId zoneName : String) (e : String)
    (h : (deploy env db userId siteId zoneId zoneName).result = .failure e) :
    (deploy env db userId siteId zoneId zoneName).db = db := by
  revert h
  simp only [deploy]
  repeat' split
  all_goals intro h
  all_goals first | rfl | simp_all

/-- Witness for C1: KV-store creation fails, the database is unchanged. -/
theorem deploy_failure_leaves_db_witness :
    (deploy kvFailEnv baseDb 1 "site" "z1" "example.com").db = baseDb :=
  deploy_failure_leaves_db kvFailEnv baseDb 1 "site" "z1" "example.com"
    "KV create boom" (by decide)

/-- C7: provisioning returns the failure `e` exactly when one of steps
1–6 (connection lookup, vault decryption, KV-store creation, worker
upload, the three worker secrets, route add) throws `e` first: vault and
API-client errors propagate unmodified and fail fast, while per-item sync
write failures (step 7) and the health probe (step 9) — absent from
`specFailFast` — can never fail the operation. -/
theorem deploy_fail_fast_propagation (env : OrchEnv) (db : DB) (userId : Nat)
    (siteId zoneId zoneName : String) (e : String) :
    (deploy env db userId siteId zoneId zoneName).result = .failure e ↔
      specFailFast env db userId siteId zoneId zoneName = some e := by
  simp only [deploy, specFailFast]
  repeat' split
  all_goals simp_all

theorem wf_after_deploy (env : OrchEnv) (db : DB) (userId : Nat)
    (siteId zoneId zoneName : String) (h : activeDeploymentsWellFormed db) :
    activeDeploymentsWellFormed (deploy env db userId siteId zoneId zoneName).db := by
  simp only [deploy]
  repeat' split
  all_goals try exact h
  intro d hd
  simp only [List.mem_append, List.mem_singleton] at hd
  rcases hd with hmem | rfl
  · exact h d hmem
  · intro _
    exact ⟨rfl, rfl⟩

theorem wf_after_updateVariants (env : OrchEnv) (db : DB)
    (deploymentId userId : Nat) (h : activeDeploymentsWellFormed db) :
    activeDeploymentsWellFormed (updateVariants env db deploymentId userId).1 := by
  simp only [updateVariants]
  repeat' split
  all_goals try exact h
  intro d hd
  simp only [List.mem_map] at hd
  obtain ⟨d0, hd0, rfl⟩ := hd
  split
  · exact h d0 hd0
  · exact h d0 hd0

theorem wf_after_deleteDeployment (env : OrchEnv) (db : DB)
    (deploymentId userId : Nat) (h : activeDeploymentsWellFormed db) :
    activeDeploymentsWellFormed (deleteDeployment env db deploymentId userId).1 := by
  simp only [deleteDeployment]
  repeat' split
  all_goals try exact h
  intro d hd
  simp only [List.mem_map] at hd
  obtain ⟨d0, hd0, rfl⟩ := hd
  split
  · intro hst
    simp at hst
  · exact h d0 hd0

/-- C2: every deployments row the code persists as `active` carries a
worker name and a key-value store id, and this invariant is preserved by
provisioning (`deploy`), resync (`updateVariants`) and teardown
(`deleteDeployment`). -/
theorem active_deployment_rows_invariant (env : OrchEnv) (db : DB)
    (userId deploymentId : Nat) (siteId zoneId zoneName : String)
    (h : activeDeploymentsWellFormed db) :
    activeDeploymentsWellFormed (deploy env db userId siteId zoneId zoneName).db ∧
    activeDeploymentsWellFormed (updateVariants env db deploymentId userId).1 ∧
    activeDeploymentsWellFormed (deleteDeployment env db deploymentId userId).1 :=
  ⟨wf_after_deploy env db userId siteId zoneId zoneName h,
   wf_after_updateVariants env db deploymentId userId h,
   wf_after_deleteDeployment env db deploymentId userId h⟩

/-- Witness for C2 at a concrete database holding an active deployment. -/
theorem active_deployment_rows_invariant_witness :
    activeDeploymentsWellFormed (deploy okEnv dbWithDep 1 "site" "z1" "example.com").db ∧
    activeDeploymentsWellFormed (updateVariants okEnv dbWithDep 1 1).1 ∧
    activeDeploymentsWellFormed (deleteDeployment okEnv dbWithDep 1 1).1 :=
  active_deployment_rows_invariant okEnv dbWithDep 1 1 "site" "z1" "example.com"
    (by decide)

theorem forall₂_self {α : Type} {r : α → α → Prop} (l : List α)
    (hr : ∀ a, r a a) : List.Forall₂ r l l :=
  List.forall₂_same.mpr fun a _ => hr a

theorem forall₂_map_self {α : Type} {r : α → α → Prop} (l : List α) (f : α → α)
    (hf : ∀ a, r a (f a)) : List.Forall₂ r l (l.map f) := by
  rw [List.forall₂_map_right_iff]
  exact List.forall₂_same.mpr fun a _ => hf a

theorem deploymentFrame_refl (d : DeploymentRow) : deploymentFrame d d := by
  simp [deploymentFrame]

theorem apiKeyFrame_refl (k : ApiKeyRow) : apiKeyFrame k k := by
  simp [apiKeyFrame]

theorem scopedDeploymentFrame_refl (i : Nat) (d : DeploymentRow) :
    scopedDeploymentFrame i d d :=
  ⟨deploymentFrame_refl d, fun _ => rfl⟩

theorem scopedApiKeyFrame_refl (i : Nat) (k : ApiKeyRow) :
    scopedApiKeyFrame i k k :=
  ⟨apiKeyFrame_refl k, fun _ => rfl⟩

/-- C10: teardown of deployment `deploymentId` leaves the variants table
(and the connections table) untouched; no deployments or api_keys row is
deleted or reordered; a deployments row of any other deployment and an
api_keys row of any other deployment are completely unchanged; and even
the targeted rows change at most `status`/`last_updated` (deployments)
resp. `status` (api_keys). -/
theorem teardown_variants_frame (env : OrchEnv) (db : DB)
    (deploymentId userId : Nat) :
    (deleteDeployment env db deploymentId userId).1.variants = db.variants ∧
    (deleteDeployment env db deploymentId userId).1.connections = db.connections ∧
    List.Forall₂ (scopedDeploymentFrame deploymentId) db.deployments
      (deleteDeployment env db deploymentId userId).1.deployments ∧
    List.Forall₂ (scopedApiKeyFrame deploymentId) db.api_keys
      (deleteDeployment env db deploymentId userId).1.api_keys := by
  simp only [deleteDeployment]
  repeat' split
  · exact ⟨rfl, rfl, forall₂_self _ (scopedDeploymentFrame_refl deploymentId),
      forall₂_self _ (scopedApiKeyFrame_refl deploymentId)⟩
  · exact ⟨rfl, rfl, forall₂_self _ (scopedDeploymentFrame_refl deploymentId),
      forall₂_self _ (scopedApiKeyFrame_refl deploymentId)⟩
  · refine ⟨rfl, rfl, forall₂_map_self _ _ ?_, forall₂_map_self _ _ ?_⟩
    · intro d
      by_cases hid : (d.id == deploymentId) = true
      · rw [if_pos hid]
        exact ⟨by simp [deploymentFrame],
          fun hne => absurd (by simpa using hid) hne⟩
      · rw [if_neg hid]
        exact scopedDeploymentFrame_refl deploymentId d
    · intro k
      by_cases hid : (k.deployment_id == some deploymentId) = true
      · rw [if_pos hid]
        exact ⟨by simp [apiKeyFrame],
          fun hne => absurd (by simpa using hid) hne⟩
      · rw [if_neg hid]
        exact scopedApiKeyFrame_refl deploymentId k

theorem uploadStep_foldl_count (env : OrchEnv) (a k : String) :
    ∀ (l : List VariantRow) (acc : Nat × List Event),
      (l.foldl (uploadStep env a k) acc).1 =
        acc.1 + (l.filter (fun v =>
          !exceptFailed (env.putKVValue a k v.url_path v.content))).length := by
  intro l
  induction l with
  | nil =>
    intro acc
    simp
  | cons v vs ih =>
    intro acc
    rw [List.foldl_cons]
    cases hcall : env.putKVValue a k v.url_path v.content with
    | ok u =>
      have hstep : uploadStep env a k acc v =
          (acc.1 + 1, acc.2 ++ [Event.variantPut v.url_path true]) := by
        simp [uploadStep, hcall]
      have hcond : (!exceptFailed (env.putKVValue a k v.url_path v.content))
          = true := by
        simp [exceptFailed, hcall]
      rw [hstep, ih, List.filter_cons, hcond, if_pos rfl]
      simp only [List.length_cons]
      omega
    | error err =>
      have hstep : uploadStep env a k acc v =
          (acc.1, acc.2 ++ [Event.variantPut v.url_path false]) := by
        simp [uploadStep, hcall]
      have hcond : (!exceptFailed (env.putKVValue a k v.url_path v.content))
          = false := by
        simp [exceptFailed, hcall]
      rw [hstep, ih, List.filter_cons, hcond]
      simp

theorem length_filter_not (l : List VariantRow) (p : VariantRow → Bool) :
    (l.filter fun a => !p a).length = l.length - (l.filter p).length := by
  induction l with
  | nil => simp
  | cons a l ih =>
    have hle := List.length_filter_le p l
    cases hp : p a <;> (simp [List.filter_cons, hp, ih]; try omega)

/-- C4: resync on a deployment returns exactly `T - F` where `T` is the
number of relevant variant rows and `F` the number whose remote key-value
writes fail; each item's failure is absorbed individually and the call
returns `.ok` (never throws) despite partial failure. -/
theorem resync_returns_success_count (env : OrchEnv) (db : DB)
    (deploymentId userId : Nat) (d : DeploymentRow) (c : ConnectionRow)
    (tok : String)
    (hfind : findDeploymentJoin db deploymentId userId true = some (d, c))
    (hdec : env.decryptToken c.token_encrypted env.encryptionKey = .ok tok) :
    (updateVariants env db deploymentId userId).2 =
      .ok ((relevantVariants db userId (some deploymentId)).length -
        ((relevantVariants db userId (some deploymentId)).filter
          (fun v => exceptFailed
            (env.putKVValue c.account_id (d.kv_namespace_id.getD "")
              v.url_path v.content))).length) := by
  unfold updateVariants
  rw [hfind]
  dsimp only
  rw [hdec]
  dsimp only
  unfold uploadExistingVariants
  rw [uploadStep_foldl_count]
  rw [length_filter_not]
  simp

/-- Witness for C4: three relevant variants, the write for `/b` fails, the
call returns `.ok (3 - 1)`. -/
theorem resync_returns_success_count_witness :
    (updateVariants okEnv dbWithDep 1 1).2 =
      .ok ((relevantVariants dbWithDep 1 (some 1)).length -
        ((relevantVariants dbWithDep 1 (some 1)).filter
          (fun v => exceptFailed
            (okEnv.putKVValue conn1.account_id (dep1.kv_namespace_id.getD "")
              v.url_path v.content))).length) :=
  resync_returns_success_count okEnv dbWithDep 1 1 dep1 conn1 "cf-token"
    (by decide) rfl

theorem find?_map_congr {α : Type} (p : α → Bool) (f : α → α) (l : List α)
    (hf : ∀ x, p (f x) = p x) : (l.map f).find? p = (l.find? p).map f := by
  have hpf : p ∘ f = p := funext hf
  rw [List.find?_map, hpf]

/-- C3: once teardown has found the deployment and decrypted the
credential, it attempts the three independent remote deletions and then —
whatever those attempts return, including all three failing — marks the
deployment row `deleted` and its api keys `inactive`, and returns without
error; and a second teardown of the same deployment also returns without
error even though the remote resources are already gone. -/
theorem teardown_unconditional_bookkeeping (env : OrchEnv) (db : DB)
    (deploymentId userId : Nat) (d : DeploymentRow) (c : ConnectionRow)
    (tok : String)
    (hfind : findDeploymentJoin db deploymentId userId false = some (d, c))
    (hdec : env.decryptToken c.token_encrypted env.encryptionKey = .ok tok) :
    (deleteDeployment env db deploymentId userId).2 = .ok () ∧
    (∀ r ∈ (deleteDeployment env db deploymentId userId).1.deployments,
      r.id = deploymentId → r.status = "deleted") ∧
    (∀ k ∈ (deleteDeployment env db deploymentId userId).1.api_keys,
      k.deployment_id = some deploymentId → k.status = "inactive") ∧
    (deleteDeployment env (deleteDeployment env db deploymentId userId).1
      deploymentId userId).2 = .ok () := by
  have hrun : deleteDeployment env db deploymentId userId =
      ({ db with
          deployments := db.deployments.map fun r =>
            if r.id == deploymentId then
              { r with status := "deleted", last_updated := env.now }
            else r,
          api_keys := db.api_keys.map fun k =>
            if k.deployment_id == some deploymentId then
              { k with status := "inactive" }
            else k }, .ok ()) := by
    unfold deleteDeployment
    rw [hfind]
    dsimp only
    rw [hdec]
  -- unpack the join: the deployments row and the connection row it found
  have hfind' := hfind
  unfold findDeploymentJoin at hfind'
  rcases hd : db.deployments.find?
      (fun r => r.id == deploymentId && r.user_id == userId &&
        (!false || r.status == "active")) with _ | d0
  · rw [hd] at hfind'
    simp at hfind'
  rw [hd] at hfind'
  dsimp only at hfind'
  rcases hc : db.connections.find? (fun c0 => c0.user_id == d0.user_id) with _ | c0
  · rw [hc] at hfind'
    simp at hfind'
  rw [hc] at hfind'
  simp only [Option.some.injEq, Prod.mk.injEq] at hfind'
  obtain ⟨rfl, rfl⟩ := hfind'
  refine ⟨by rw [hrun], ?_, ?_, ?_⟩
  · rw [hrun]
    intro r hr
    simp only [List.mem_map] at hr
    obtain ⟨r0, _, rfl⟩ := hr
    by_cases hid : (r0.id == deploymentId) = true
    · rw [if_pos hid]
      intro _
      rfl
    · rw [if_neg hid]
      intro heq
      exact absurd (by simp [heq]) hid
  · rw [hrun]
    intro k hk
    simp only [List.mem_map] at hk
    obtain ⟨k0, _, rfl⟩ := hk
    by_cases hid : (k0.deployment_id == some deploymentId) = true
    · rw [if_pos hid]
      intro _
      rfl
    · rw [if_neg hid]
      intro heq
      exact absurd (by simp [heq]) hid
  · -- second invocation on the updated database
    rw [hrun]
    have hpred : ∀ r : DeploymentRow,
        ((if r.id == deploymentId then
            { r with status := "deleted", last_updated := env.now }
          else r).id == deploymentId &&
          (if r.id == deploymentId then
            { r with status := "deleted", last_updated := env.now }
          else r).user_id == userId &&
          (!false || (if r.id == deploymentId then
            { r with status := "deleted", last_updated := env.now }
          else r).status == "active")) =
        (r.id == deploymentId && r.user_id == userId &&
          (!false || r.status == "active")) := by
      intro r
      split <;> simp
    have hd2 : (db.deployments.map fun r =>
        if r.id == deploymentId then
          { r with status := "deleted", last_updated := env.now }
        else r).find?
        (fun r => r.id == deploymentId && r.user_id == userId &&
          (!false || r.status == "active")) =
        some (if d0.id == deploymentId then
          { d0 with status := "deleted", last_updated := env.now }
        else d0) := by
      rw [find?_map_congr _ _ _ hpred, hd]
      rfl
    have huid : (if d0.id == deploymentId then
        { d0 with status := "deleted", last_updated := env.now }
      else d0).user_id = d0.user_id := by
      split <;> rfl
    unfold deleteDeployment findDeploymentJoin
    dsimp only
    rw [hd2]
    dsimp only
    rw [huid, hc]
    dsimp only
    rw [hdec]

/-- Witness for C3: a concrete teardown under an oracle where all three
remote deletions fail, run twice. -/
theorem teardown_unconditional_bookkeeping_witness :
    (deleteDeployment okEnv dbWithDep 1 1).2 = .ok () ∧
    (∀ r ∈ (deleteDeployment okEnv dbWithDep 1 1).1.deployments,
      r.id = 1 → r.status = "deleted") ∧
    (∀ k ∈ (deleteDeployment okEnv dbWithDep 1 1).1.api_keys,
      k.deployment_id = some 1 → k.status = "inactive") ∧
    (deleteDeployment okEnv (deleteDeployment okEnv dbWithDep 1 1).1 1 1).2 =
      .ok () :=
  teardown_unconditional_bookkeeping okEnv dbWithDep 1 1 dep1 conn1 "cf-token"
    (by decide) rfl

theorem uploadStep_foldl_marks (env : OrchEnv) (a k : String) :
    ∀ (l : List VariantRow) (acc : Nat × List Event),
      ((l.foldl (uploadStep env a k) acc).2).filter isOrderMarkEv =
        acc.2.filter isOrderMarkEv := by
  intro l
  induction l with
  | nil =>
    intro acc
    rfl
  | cons v vs ih =>
    intro acc
    rw [List.foldl_cons]
    cases hcall : env.putKVValue a k v.url_path v.content with
    | ok u =>
      have hstep : uploadStep env a k acc v =
          (acc.1 + 1, acc.2 ++ [Event.variantPut v.url_path true]) := by
        simp [uploadStep, hcall]
      rw [hstep, ih]
      simp [List.filter_append, isOrderMarkEv]
    | error err =>
      have hstep : uploadStep env a k acc v =
          (acc.1, acc.2 ++ [Event.variantPut v.url_path false]) := by
        simp [uploadStep, hcall]
      rw [hstep, ih]
      simp [List.filter_append, isOrderMarkEv]

theorem uploadExistingVariants_no_marks (env : OrchEnv) (a k : String)
    (userId : Nat) (did : Option Nat) (db : DB) :
    ((uploadExistingVariants env a k userId did db).2).filter isOrderMarkEv
      = [] := by
  unfold uploadExistingVariants
  rw [uploadStep_foldl_marks]
  rfl

/-- Counterexample to C6 as stated: on a fully successful provisioning
run, the digest insert (`api_keys`) does NOT precede the route add, nor
the deployment-row insert — it is the last local write. -/
theorem digest_persisted_early_cex :
    ¬ digestPersistedEarly
      (deploy okEnv baseDb 1 "site" "z1" "example.com").trace := by
  decide

/-- C6 as amended: on every successful provisioning run, the three worker
secrets (the opaque secret, the site identifier, the callback endpoint)
are set — in that order — before the routing rule is added, and the
secret's digest is persisted only after the Deployment row, as the final
local write; the digest itself is computed at step 5, before the route
add. -/
theorem secrets_before_route_digest_after_row (env : OrchEnv) (db : DB)
    (userId : Nat) (siteId zoneId zoneName : String) (i : Nat) (w k : String)
    (n : Nat)
    (h : (deploy env db userId siteId zoneId zoneName).result = .success i w k n) :
    ∃ r, (deploy env db userId siteId zoneId zoneName).trace.filter isOrderMarkEv =
      [.secretSet "CLIENT_API_KEY", .secretSet "SITE_ID",
       .secretSet "API_ENDPOINT", .routeAdded r,
       .deploymentInserted db.nextDeploymentId,
       .apiKeyInserted db.nextDeploymentId] := by
  revert h
  simp only [deploy]
  repeat' split
  all_goals intro h
  all_goals dsimp only at h
  all_goals try (exact DeployResult.noConfusion h)
  rename_i rid hroute
  refine ⟨rid, ?_⟩
  simp only [List.filter_append, uploadExistingVariants_no_marks]
  simp [isOrderMarkEv]

/-- Witness for the amended C6 at a concrete successful run. -/
theorem secrets_before_route_digest_after_row_witness :
    ∃ r, (deploy okEnv baseDb 1 "site" "z1" "example.com").trace.filter
        isOrderMarkEv =
      [.secretSet "CLIENT_API_KEY", .secretSet "SITE_ID",
       .secretSet "API_ENDPOINT", .routeAdded r,
       .deploymentInserted baseDb.nextDeploymentId,
       .apiKeyInserted baseDb.nextDeploymentId] :=
  secrets_before_route_digest_after_row okEnv baseDb 1 "site" "z1" "example.com"
    1 "axp-site" "kv1" 2 (by decide)

end AgxpSpec
